import Mathlib

/-!
Verification development for `cmdbtools/cmdbtools.py`, a CLI that
authenticates against the CMDB variant-database API, stores a local access
token, and annotates VCF streams with allele-frequency data fetched per
variant.  The Python source is shallowly embedded below: pure fragments
become Lean functions, the HTTP transport becomes an explicit outcome
datatype, JSON values become an inductive type, and raised Python
exceptions become `Except` error values.
-/

set_option autoImplicit false

namespace Cmdbtools

/-- A Python/JSON value as handled by the tool.  `json.load` produces
nulls, strings, numbers, arrays and objects; the tool never computes with
floats, it only re-renders them into INFO strings, so a float is carried
as its decimal rendering (`jflt`). -/
inductive PyJson where
  | null
  | jstr (s : String)
  | jnum (n : Int)
  | jflt (repr : String)
  | jarr (elems : List PyJson)
  | jobj (fields : List (String × PyJson))

/-- `x is None` test used at `annotate` line 293. -/
def pyIsNone : PyJson → Bool
  | .null => true
  | _ => false

/-- Python truthiness of a JSON value, as tested by `while url:`
(`_query_paged` line 172): null, the empty string, zero, and empty
containers are falsy; everything else is truthy.  A float is falsy
exactly when it is zero; with floats carried by their decimal rendering,
the zero renderings are enumerated. -/
def pyTruthy : PyJson → Bool
  | .null => false
  | .jstr s => !(s = "")
  | .jnum n => !(n = 0)
  | .jflt r => !(r = "0.0" || r = "-0.0" || r = "0" || r = "-0")
  | .jarr xs => !xs.isEmpty
  | .jobj kvs => !kvs.isEmpty

/-- `'{}'.format(v)` for the scalar JSON values that reach INFO
formatting (`annotate` lines 298-301).  The API returns numeric or string
scalars for the four annotation fields; container values never reach this
point, so their rendering is a placeholder. -/
def pyFormat : PyJson → String
  | .null => "None"
  | .jstr s => s
  | .jnum n => toString n
  | .jflt r => r
  | .jarr _ => "<list>"
  | .jobj _ => "<dict>"

/-- `dict.get(k, d)` on a JSON object (`_query_nonpaged` line 199,
`_query_paged` line 176). -/
def pyDictGet (kvs : List (String × PyJson)) (k : String) (d : PyJson) : PyJson :=
  match kvs.find? (fun p => p.1 = k) with
  | some p => p.2
  | none => d

/-- The whitespace class of Python's `str.rstrip()` / `str.split()`
(space, tab, newline, carriage return, vertical tab, form feed). -/
def pyIsSpace (c : Char) : Bool :=
  c = ' ' || c = '\t' || c = '\n' || c = '\r' || c = Char.ofNat 11 || c = Char.ofNat 12

/-- Python `s.rstrip()`: drop trailing whitespace. -/
def rstrip (s : String) : String :=
  String.mk ((s.data.reverse.dropWhile pyIsSpace).reverse)

/-- Python `s.split(sep)` on a character list: split at every occurrence
of `sep`, keeping empty pieces (`''.split(';') == ['']`). -/
def splitCharsList (sep : Char) : List Char → List (List Char)
  | [] => [[]]
  | c :: cs =>
    if c = sep then [] :: splitCharsList sep cs
    else
      match splitCharsList sep cs with
      | [] => [[c]]
      | h :: t => (c :: h) :: t

/-- Python `s.split(sep)` for a single-character separator. -/
def pySplit (sep : Char) (s : String) : List String :=
  (splitCharsList sep s.data).map String.mk

/-- Accumulator pass of Python's no-argument `str.split()`:
runs of whitespace separate maximal non-whitespace words. -/
def pyWordsAux : List Char → List Char → List (List Char)
  | [], acc => if acc.isEmpty then [] else [acc.reverse]
  | c :: cs, acc =>
    if pyIsSpace c then
      if acc.isEmpty then pyWordsAux cs []
      else acc.reverse :: pyWordsAux cs []
    else pyWordsAux cs (c :: acc)

/-- Python `s.split()` (no argument): whitespace-run field splitting with
no empty fields. -/
def pySplitWs (s : String) : List String :=
  (pyWordsAux s.data []).map String.mk

/-- Python `s.startswith(pre)`. -/
def pyStartsWith (s pre : String) : Bool :=
  pre.data.isPrefixOf s.data

/-- `c.split('=')[0]` (`annotate` line 306): the key of a
`key[=value]` INFO token. -/
def tokenKey (c : String) : String :=
  (pySplit '=' c).headD ""

/-- Lexicographic comparison of character lists by code point: the string
order used by Python's `sorted` on the INFO keys. -/
def charListLe : List Char → List Char → Bool
  | [], _ => true
  | _ :: _, [] => false
  | a :: as, b :: bs =>
    if a < b then true
    else if b < a then false
    else charListLe as bs

/-- Python's `<=` on strings: lexicographic by code point. -/
def pyStrLe (a b : String) : Bool :=
  charListLe a.data b.data

/-- The propositional form of `pyStrLe`, the sort order of
`sorted(new_info.keys())`. -/
def PyStrLe (a b : String) : Prop :=
  pyStrLe a b = true

instance : DecidableRel PyStrLe := fun a b => by
  unfold PyStrLe; infer_instance

/-- The record the matched response contributes to annotation:
`cmdb_variant[0]['allele_num']` etc., each already rendered by
`'{}'.format` (`annotate` lines 297-302). -/
structure CmdbVariantRecord where
  allele_num : String
  allele_count : String
  allele_freq : String
  filter_status : String

/-- The `new_info` dict literal of `annotate` lines 297-302, as an
association list from key to full `key=value` token. -/
def cmdbBase (r : CmdbVariantRecord) : List (String × String) :=
  [("CMDB_AN", "CMDB_AN=" ++ r.allele_num),
   ("CMDB_AC", "CMDB_AC=" ++ r.allele_count),
   ("CMDB_AF", "CMDB_AF=" ++ r.allele_freq),
   ("CMDB_FILTER", "CMDB_FILTER=" ++ r.filter_status)]

/-- One step of the merge loop (`annotate` lines 305-308):
`k = c.split('=')[0]; if k not in new_info: new_info[k] = c`. -/
def insTok (acc : List (String × String)) (c : String) : List (String × String) :=
  if acc.any (fun p => p.1 = tokenKey c) then acc else acc ++ [(tokenKey c, c)]

/-- The fully merged `new_info` mapping (`annotate` lines 297-308):
the four CMDB entries, then each original INFO token whose key is not yet
bound; skipped entirely when INFO is literally `"."`. -/
def newInfo (r : CmdbVariantRecord) (info : String) : List (String × String) :=
  if info = "." then cmdbBase r
  else (pySplit ';' info).foldl insTok (cmdbBase r)

/-- `new_info[k]` lookup; the keys iterated over are exactly the bound
keys, so the default is never returned. -/
def lookupTok (m : List (String × String)) (k : String) : String :=
  match m.find? (fun p => p.1 = k) with
  | some p => p.2
  | none => ""

/-- The list comprehension `[new_info[k] for k in sorted(new_info.keys())]`
of `annotate` line 310. -/
def mergeInfoTokens (r : CmdbVariantRecord) (info : String) : List String :=
  (List.insertionSort PyStrLe ((newInfo r info).map Prod.fst)).map
    (lookupTok (newInfo r info))

/-- The re-serialized INFO column:
`';'.join([new_info[k] for k in sorted(new_info.keys())])`
(`annotate` line 310). -/
def mergeInfo (r : CmdbVariantRecord) (info : String) : String :=
  String.intercalate ";" (mergeInfoTokens r info)

theorem charListLe_total (a b : List Char) : charListLe a b = true ∨ charListLe b a = true := by
  induction a generalizing b with
  | nil => left; rfl
  | cons x xs ih =>
    cases b with
    | nil => right; rfl
    | cons y ys =>
      by_cases hxy : x < y
      · left; simp [charListLe, hxy]
      · by_cases hyx : y < x
        · right; simp [charListLe, hyx]
        · rcases ih ys with h | h
          · left; simp [charListLe, hxy, hyx, h]
          · right; simp [charListLe, hxy, hyx, h]

theorem charListLe_trans {a b c : List Char} (h1 : charListLe a b = true)
    (h2 : charListLe b c = true) : charListLe a c = true := by
  induction a generalizing b c with
  | nil => rfl
  | cons x xs ih =>
    cases b with
    | nil => simp [charListLe] at h1
    | cons y ys =>
      cases c with
      | nil => simp [charListLe] at h2
      | cons z zs =>
        simp only [charListLe] at h1 h2 ⊢
        by_cases hxy : x < y
        · by_cases hyz : y < z
          · simp [lt_trans hxy hyz]
          · by_cases hzy : z < y
            · simp [hyz, hzy] at h2
            · have hyzeq : y = z := le_antisymm (le_of_not_lt hzy) (le_of_not_lt hyz)
              simp [hyzeq ▸ hxy]
        · by_cases hyx : y < x
          · simp [hxy, hyx] at h1
          · have hxyeq : x = y := le_antisymm (le_of_not_lt hyx) (le_of_not_lt hxy)
            by_cases hyz : y < z
            · simp [hxyeq ▸ hyz]
            · by_cases hzy : z < y
              · simp [hyz, hzy] at h2
              · have hyzeq : y = z := le_antisymm (le_of_not_lt hzy) (le_of_not_lt hyz)
                simp only [hxy, hyx, if_false] at h1
                simp only [hyz, hzy, if_false] at h2
                have hxz : ¬ x < z := hyzeq ▸ hxyeq ▸ hxy
                have hzx : ¬ z < x := hyzeq ▸ hxyeq ▸ hyx
                simp [hxz, hzx, ih h1 h2]

instance : IsTotal String PyStrLe :=
  ⟨fun a b => charListLe_total a.data b.data⟩

instance : IsTrans String PyStrLe :=
  ⟨fun _ _ _ h1 h2 => charListLe_trans h1 h2⟩

theorem tokenKey_an (v : String) : tokenKey ("CMDB_AN=" ++ v) = "CMDB_AN" := by
  obtain ⟨d⟩ := v; rfl

theorem tokenKey_ac (v : String) : tokenKey ("CMDB_AC=" ++ v) = "CMDB_AC" := by
  obtain ⟨d⟩ := v; rfl

theorem tokenKey_af (v : String) : tokenKey ("CMDB_AF=" ++ v) = "CMDB_AF" := by
  obtain ⟨d⟩ := v; rfl

theorem tokenKey_filter (v : String) : tokenKey ("CMDB_FILTER=" ++ v) = "CMDB_FILTER" := by
  obtain ⟨d⟩ := v; rfl

/-- Keys bound by the `new_info` dict literal, before the merge loop. -/
theorem cmdbBase_keys (r : CmdbVariantRecord) :
    (cmdbBase r).map Prod.fst = ["CMDB_AN", "CMDB_AC", "CMDB_AF", "CMDB_FILTER"] := rfl

theorem cmdbBase_wellKeyed (r : CmdbVariantRecord) :
    ∀ p ∈ cmdbBase r, p.1 = tokenKey p.2 := by
  intro p hp
  simp only [cmdbBase, List.mem_cons, List.not_mem_nil, or_false] at hp
  rcases hp with h | h | h | h <;> subst h
  · exact (tokenKey_an r.allele_num).symm
  · exact (tokenKey_ac r.allele_count).symm
  · exact (tokenKey_af r.allele_freq).symm
  · exact (tokenKey_filter r.filter_status).symm

theorem insTok_pos {acc : List (String × String)} {c : String}
    (hc : acc.any (fun q => q.1 = tokenKey c) = true) : insTok acc c = acc := by
  simp [insTok, hc]

theorem insTok_neg {acc : List (String × String)} {c : String}
    (hc : ¬ acc.any (fun q => q.1 = tokenKey c) = true) :
    insTok acc c = acc ++ [(tokenKey c, c)] := by
  simp [insTok, hc]

theorem insTok_extends (acc : List (String × String)) (c : String) :
    acc <+: insTok acc c := by
  by_cases h : acc.any (fun q => q.1 = tokenKey c) = true
  · rw [insTok_pos h]
  · rw [insTok_neg h]
    exact List.prefix_append acc _

theorem foldl_insTok_extends (ts : List String) (acc : List (String × String)) :
    acc <+: ts.foldl insTok acc := by
  induction ts generalizing acc with
  | nil => exact List.prefix_refl acc
  | cons t ts ih => exact (insTok_extends acc t).trans (ih (insTok acc t))

theorem insTok_wellKeyed {acc : List (String × String)} (c : String)
    (h : ∀ p ∈ acc, p.1 = tokenKey p.2) : ∀ p ∈ insTok acc c, p.1 = tokenKey p.2 := by
  intro p hp
  by_cases hc : acc.any (fun q => q.1 = tokenKey c) = true
  · exact h p (by rwa [insTok_pos hc] at hp)
  · rw [insTok_neg hc] at hp
    rcases List.mem_append.mp hp with hp | hp
    · exact h p hp
    · rw [List.mem_singleton.mp hp]

theorem foldl_insTok_wellKeyed {acc : List (String × String)} (ts : List String)
    (h : ∀ p ∈ acc, p.1 = tokenKey p.2) : ∀ p ∈ ts.foldl insTok acc, p.1 = tokenKey p.2 := by
  induction ts generalizing acc with
  | nil => exact h
  | cons t ts ih => exact ih (insTok_wellKeyed t h)

theorem insTok_keys_nodup {acc : List (String × String)} (c : String)
    (h : (acc.map Prod.fst).Nodup) : ((insTok acc c).map Prod.fst).Nodup := by
  by_cases hc : acc.any (fun q => q.1 = tokenKey c) = true
  · rwa [insTok_pos hc]
  · have hk : tokenKey c ∉ acc.map Prod.fst := by
      intro hmem
      rcases List.mem_map.mp hmem with ⟨q, hq, hq1⟩
      exact hc (List.any_eq_true.mpr ⟨q, hq, by simp [hq1]⟩)
    rw [insTok_neg hc, List.map_append, List.nodup_append]
    refine ⟨h, List.nodup_singleton _, ?_⟩
    intro a ha hb
    rw [List.map_cons, List.map_nil, List.mem_singleton] at hb
    rw [hb] at ha
    exact hk ha

theorem foldl_insTok_keys_nodup {acc : List (String × String)} (ts : List String)
    (h : (acc.map Prod.fst).Nodup) : ((ts.foldl insTok acc).map Prod.fst).Nodup := by
  induction ts generalizing acc with
  | nil => exact h
  | cons t ts ih => exact ih (insTok_keys_nodup t h)

theorem foldl_insTok_mem {ts : List String} {c : String} {acc : List (String × String)}
    (hnd : (ts.map tokenKey).Nodup) (hc : c ∈ ts)
    (hk : tokenKey c ∉ acc.map Prod.fst) : (tokenKey c, c) ∈ ts.foldl insTok acc := by
  induction ts generalizing acc with
  | nil => cases hc
  | cons t ts ih =>
    rcases List.mem_cons.mp hc with hct | hct
    · subst hct
      have habs : ¬ acc.any (fun q => q.1 = tokenKey c) = true := by
        intro hany
        rcases List.any_eq_true.mp hany with ⟨q, hq, hq1⟩
        exact hk (List.mem_map.mpr ⟨q, hq, by simpa using hq1⟩)
      have hmem : (tokenKey c, c) ∈ insTok acc c := by
        rw [insTok_neg habs]
        exact List.mem_append.mpr (Or.inr (List.mem_singleton.mpr rfl))
      exact (foldl_insTok_extends ts (insTok acc c)).subset hmem
    · have hne : tokenKey c ≠ tokenKey t := by
        intro heq
        have : tokenKey t ∈ ts.map tokenKey := List.mem_map.mpr ⟨c, hct, heq⟩
        exact (List.nodup_cons.mp hnd).1 this
      have hk2 : tokenKey c ∉ (insTok acc t).map Prod.fst := by
        intro hmem
        by_cases ht : acc.any (fun q => q.1 = tokenKey t) = true
        · rw [insTok_pos ht] at hmem
          exact hk hmem
        · rw [insTok_neg ht, List.map_append] at hmem
          rcases List.mem_append.mp hmem with hmem | hmem
          · exact hk hmem
          · rw [List.map_cons, List.map_nil, List.mem_singleton] at hmem
            exact hne hmem
      exact ih (List.nodup_cons.mp hnd).2 hct hk2

theorem find?_eq_of_mem_nodup {m : List (String × String)} {k v : String}
    (hnd : (m.map Prod.fst).Nodup) (hm : (k, v) ∈ m) :
    m.find? (fun p => p.1 = k) = some (k, v) := by
  induction m with
  | nil => cases hm
  | cons q m ih =>
    rw [List.map_cons] at hnd
    have hnd' := List.nodup_cons.mp hnd
    rcases List.mem_cons.mp hm with hq | hq
    · subst hq
      exact List.find?_cons_of_pos _ (by simp)
    · have hne : q.1 ≠ k := by
        intro heq
        exact hnd'.1 (List.mem_map.mpr ⟨(k, v), hq, heq.symm⟩)
      rw [List.find?_cons_of_neg _ (by simpa using hne)]
      exact ih hnd'.2 hq

theorem lookupTok_eq_of_mem_nodup {m : List (String × String)} {k v : String}
    (hnd : (m.map Prod.fst).Nodup) (hm : (k, v) ∈ m) : lookupTok m k = v := by
  unfold lookupTok
  rw [find?_eq_of_mem_nodup hnd hm]

theorem newInfo_keys_nodup (r : CmdbVariantRecord) (info : String) :
    ((newInfo r info).map Prod.fst).Nodup := by
  unfold newInfo
  by_cases h : info = "."
  · rw [if_pos h, cmdbBase_keys]; decide
  · rw [if_neg h]
    exact foldl_insTok_keys_nodup _ (by rw [cmdbBase_keys]; decide)

theorem newInfo_wellKeyed (r : CmdbVariantRecord) (info : String) :
    ∀ p ∈ newInfo r info, p.1 = tokenKey p.2 := by
  unfold newInfo
  by_cases h : info = "."
  · rw [if_pos h]
    exact cmdbBase_wellKeyed r
  · rw [if_neg h]
    exact foldl_insTok_wellKeyed _ (cmdbBase_wellKeyed r)

theorem cmdbBase_subset_newInfo (r : CmdbVariantRecord) (info : String) :
    ∀ p ∈ cmdbBase r, p ∈ newInfo r info := by
  intro p hp
  unfold newInfo
  by_cases h : info = "."
  · rwa [if_pos h]
  · rw [if_neg h]
    exact (foldl_insTok_extends _ _).subset hp

/-- The token list re-serialized at `annotate` line 310 lists, in the
sorted key order, exactly the key of each token it contains. -/
theorem mergeInfoTokens_map_tokenKey (r : CmdbVariantRecord) (info : String) :
    (mergeInfoTokens r info).map tokenKey =
      List.insertionSort PyStrLe ((newInfo r info).map Prod.fst) := by
  unfold mergeInfoTokens
  rw [List.map_map]
  conv_rhs => rw [← List.map_id (List.insertionSort PyStrLe ((newInfo r info).map Prod.fst))]
  apply List.map_congr_left
  intro k hk
  have hk2 : k ∈ (newInfo r info).map Prod.fst := (List.mem_insertionSort PyStrLe).mp hk
  rcases List.mem_map.mp hk2 with ⟨p, hp, hp1⟩
  have hmem : (k, p.2) ∈ newInfo r info := by
    rw [← hp1]
    simpa using hp
  have heq : lookupTok (newInfo r info) k = p.2 :=
    lookupTok_eq_of_mem_nodup (newInfo_keys_nodup r info) hmem
  simp only [Function.comp_apply, heq, id_eq]
  rw [← newInfo_wellKeyed r info p hp, hp1]

theorem mem_mergeInfoTokens_of_mem_newInfo {r : CmdbVariantRecord} {info k v : String}
    (h : (k, v) ∈ newInfo r info) : v ∈ mergeInfoTokens r info := by
  unfold mergeInfoTokens
  have hk : k ∈ (newInfo r info).map Prod.fst := List.mem_map.mpr ⟨(k, v), h, rfl⟩
  have hk2 : k ∈ List.insertionSort PyStrLe ((newInfo r info).map Prod.fst) :=
    (List.mem_insertionSort PyStrLe).mpr hk
  have hv : lookupTok (newInfo r info) k = v :=
    lookupTok_eq_of_mem_nodup (newInfo_keys_nodup r info) h
  exact hv ▸ List.mem_map_of_mem _ hk2

/-- Claim C1: on a matched data line, the re-serialized INFO token list is
in lexicographically sorted key order with unique keys, always contains
the four CMDB key=value tokens built from the response record, preserves
every original INFO token whose key is not one of the four CMDB keys, is
exactly the four sorted CMDB tokens when the original INFO is `"."`, and
is joined with `';'` to form the emitted INFO column. -/
theorem mergeInfo_sorted_unique_preserves (r : CmdbVariantRecord) (info : String)
    (hnd : ((pySplit ';' info).map tokenKey).Nodup) :
    List.Sorted PyStrLe ((mergeInfoTokens r info).map tokenKey) ∧
    ((mergeInfoTokens r info).map tokenKey).Nodup ∧
    "CMDB_AN=" ++ r.allele_num ∈ mergeInfoTokens r info ∧
    "CMDB_AC=" ++ r.allele_count ∈ mergeInfoTokens r info ∧
    "CMDB_AF=" ++ r.allele_freq ∈ mergeInfoTokens r info ∧
    "CMDB_FILTER=" ++ r.filter_status ∈ mergeInfoTokens r info ∧
    (info ≠ "." → ∀ c ∈ pySplit ';' info,
      tokenKey c ∉ (["CMDB_AN", "CMDB_AC", "CMDB_AF", "CMDB_FILTER"] : List String) →
      c ∈ mergeInfoTokens r info) ∧
    (info = "." → mergeInfoTokens r info =
      ["CMDB_AC=" ++ r.allele_count, "CMDB_AF=" ++ r.allele_freq,
       "CMDB_AN=" ++ r.allele_num, "CMDB_FILTER=" ++ r.filter_status]) ∧
    mergeInfo r info = String.intercalate ";" (mergeInfoTokens r info) := by
  refine ⟨?_, ?_, ?_, ?_, ?_, ?_, ?_, ?_, rfl⟩
  · rw [mergeInfoTokens_map_tokenKey]
    exact List.sorted_insertionSort PyStrLe _
  · rw [mergeInfoTokens_map_tokenKey]
    exact ((List.perm_insertionSort PyStrLe _).nodup_iff).mpr (newInfo_keys_nodup r info)
  · exact mem_mergeInfoTokens_of_mem_newInfo
      (cmdbBase_subset_newInfo r info ("CMDB_AN", "CMDB_AN=" ++ r.allele_num)
        (by simp [cmdbBase]))
  · exact mem_mergeInfoTokens_of_mem_newInfo
      (cmdbBase_subset_newInfo r info ("CMDB_AC", "CMDB_AC=" ++ r.allele_count)
        (by simp [cmdbBase]))
  · exact mem_mergeInfoTokens_of_mem_newInfo
      (cmdbBase_subset_newInfo r info ("CMDB_AF", "CMDB_AF=" ++ r.allele_freq)
        (by simp [cmdbBase]))
  · exact mem_mergeInfoTokens_of_mem_newInfo
      (cmdbBase_subset_newInfo r info ("CMDB_FILTER", "CMDB_FILTER=" ++ r.filter_status)
        (by simp [cmdbBase]))
  · intro hdot c hc hk4
    apply @mem_mergeInfoTokens_of_mem_newInfo r info (tokenKey c) c
    unfold newInfo
    rw [if_neg hdot]
    apply foldl_insTok_mem hnd hc
    rw [cmdbBase_keys]
    exact hk4
  · intro h
    rw [h]
    rfl

theorem mergeInfo_sorted_unique_preserves_witness :
    ((pySplit ';' "DP=10;AB").map tokenKey).Nodup ∧
    "CMDB_AN=" ++ "100" ∈ mergeInfoTokens ⟨"100", "5", "0.05", "0"⟩ "DP=10;AB" :=
  ⟨by decide,
   (mergeInfo_sorted_unique_preserves ⟨"100", "5", "0.05", "0"⟩ "DP=10;AB" (by decide)).2.2.1⟩

/-! ## HTTP client adapter and raised exceptions -/

/-- A raised Python exception, as the embeddings observe it:
`CMDBException` (the tool's own error class, message kept as the JSON
value handed to it), and the builtin exceptions the code can trigger
(`AttributeError` carries the missing attribute name). -/
inductive PyError where
  | cmdbError (msg : PyJson)
  | attrError (attr : String)
  | valueError (s : String)
  | indexError
  | keyError (k : String)
  | typeError (msg : String)

/-- The outcome of one `urlopen` call inside `requests.get`
(lines 60-71): either the transport returned a response (a 2xx status,
since `urlopen` raises `HTTPError` for everything else) with a parsed
JSON body, or it raised `HTTPError`; the raised error's own HTTP status
(400, 403, 500, ...) is recorded here but the adapter discards it. -/
inductive TransportOutcome where
  | ok (status : Nat) (body : PyJson)
  | httpErr (status : Nat)

/-- `requests.get` composed with `_requests_response.__init__`
(lines 60-93): a caught `HTTPError` is replaced by `response = None`,
which `_requests_response` turns into `status_code = 404` with a `None`
body. -/
structure RequestsResponse where
  status_code : Nat
  json : PyJson

def requests_get : TransportOutcome → RequestsResponse
  | .ok status body => ⟨status, body⟩
  | .httpErr _ => ⟨404, PyJson.null⟩

/-- The attribute `_query_nonpaged` and `_query_paged` call on the
response for any unexpected status; `_requests_response` never defines
it, so the call raises `AttributeError`. -/
def raiseForStatusAttr : String := "raise_for_status"

/-- `_query_nonpaged` (lines 194-206): status classification of the
single-shot variant query and its returned JSON.  `403` reads
`response.json().get('error', 'Failed to query data.')` (an
`AttributeError` if the body is `None`); `404` falls through to
`return cmdb_response.json()`; any other non-201 status calls the
missing `raise_for_status` method. -/
def queryNonpagedResult (resp : RequestsResponse) : Except PyError PyJson :=
  if resp.status_code ≠ 201 then
    if resp.status_code = 403 then
      match resp.json with
      | .jobj kvs => .error (.cmdbError (pyDictGet kvs "error" (.jstr "Failed to query data.")))
      | _ => .error (.attrError "get")
    else if resp.status_code = 404 then
      .ok resp.json
    else
      .error (.attrError raiseForStatusAttr)
  else
    .ok resp.json

/-! ## Credential store and login -/

def CMDB_DATASET_VERSION : String := "CMDB_hg19_v1.0"

/-- The record `write_tokenstore` persists (lines 134-143). -/
structure TokenStore where
  access_token : String
  version : String

/-- The credential file: absent (`none`), or present with its parsed
content, where an empty freshly-created file parses to nothing yet. -/
def TokenFile : Type := Option (Option TokenStore)

/-- `authaccess_exists` (lines 104-105). -/
def authaccess_exists (fs : TokenFile) : Bool :=
  fs.isSome

/-- `create_tokenstore` (lines 108-118): create the empty file only when
it does not exist. -/
def create_tokenstore (fs : TokenFile) : TokenFile :=
  match fs with
  | some c => some c
  | none => some none

/-- `write_tokenstore` (lines 134-143): overwrite the file with the token
and the fixed dataset version. -/
def write_tokenstore (token : String) (_fs : TokenFile) : TokenFile :=
  some (some ⟨token, CMDB_DATASET_VERSION⟩)

/-- The message `login` raises on a non-201 canary status (lines 152-154;
the two adjacent source string literals concatenate with no space). -/
def loginFailMsg : String :=
  "Error while obtaining your token with CMDB API authentication server." ++
  "You may do not have the API access or the token is wrong.\n"

/-- `login` (lines 146-162): issue the canary query through the adapter;
on any status other than 201 raise before touching the store; on 201
ensure the store exists and write the token.  The result pairs the file
state after the call with the raised exception, if any. -/
def login (token : String) (canary : TransportOutcome) (fs : TokenFile) :
    TokenFile × Option PyError :=
  if (requests_get canary).status_code ≠ 201 then
    (fs, some (.cmdbError (.jstr loginFailMsg)))
  else
    (write_tokenstore token (if authaccess_exists fs then fs else create_tokenstore fs), none)

/-! ## Paged query client -/

/-- `envelope[k]` subscript access on a page envelope
(`_query_paged` lines 181-190): `KeyError` when the key is absent,
`TypeError` when the body is not an object. -/
def envField (body : PyJson) (k : String) : Except PyError PyJson :=
  match body with
  | .jobj kvs =>
    match kvs.find? (fun p => p.1 = k) with
    | some p => .ok p.2
    | none => .error (.keyError k)
  | _ => .error (.typeError "envelope is not subscriptable")

/-- `cmdb_response_data['format'] == 'vcf'`: Python `==` between a JSON
value and the string literal. -/
def isVcf : PyJson → Bool
  | .jstr s => s = "vcf"
  | _ => false

/-- The status classification at the head of each `_query_paged`
iteration (lines 173-178): 200 passes the body on, 400 raises
`CMDBException` with the server message (default
`'Failed to query data.'`), anything else calls the missing
`raise_for_status` method. -/
def queryPagedStep (resp : RequestsResponse) : Except PyError PyJson :=
  if resp.status_code ≠ 200 then
    if resp.status_code = 400 then
      match resp.json with
      | .jobj kvs => .error (.cmdbError (pyDictGet kvs "error" (.jstr "Failed to query data.")))
      | _ => .error (.attrError "get")
    else
      .error (.attrError raiseForStatusAttr)
  else
    .ok resp.json

/-- The first-page header emission of `_query_paged` (lines 181-185):
iterate the envelope's `meta` lines, then yield its `header`. -/
def vcfHeaderPart (body : PyJson) : Except PyError (List PyJson) :=
  match envField body "meta" with
  | .error e => .error e
  | .ok (.jarr ms) =>
    match envField body "header" with
    | .error e => .error e
    | .ok h => .ok (ms ++ [h])
  | .ok _ => .error (.typeError "meta is not iterable")

/-- The outcome of running the `_query_paged` loop against a finite
trace of responses: `done` when the loop exits because an envelope's
`next` value was falsy, `pending` when the trace is exhausted while the
loop still holds a truthy `url` and would issue another request (the
model under-supplies responses there — Python does not terminate at that
point), and `raised` for a propagated exception. -/
inductive PagedResult where
  | done (items : List PyJson)
  | pending (items : List PyJson)
  | raised (e : PyError)

/-- The `_query_paged` loop (lines 170-191) over the trace of responses
the successive `requests.get(url)` calls return, collecting everything
the generator yields.  On the first page only, a `"vcf"`-format envelope
contributes its meta lines and then its header before its data items;
every page contributes its data items; `while url:` is a truthiness
test, so the loop fetches the next page exactly when the envelope's
`next` value is truthy and exits when it is falsy (null, the empty
string, ...).  (The generator yields items one at a time; an error on a
later page discards the already-yielded prefix in this list-valued
model, which no claim exercises.) -/
def queryPagedGo : List RequestsResponse → Nat → PagedResult
  | [], _ => .pending []
  | resp :: rest, page_no =>
    match queryPagedStep resp with
    | .error e => .raised e
    | .ok body =>
      match envField body "format" with
      | .error e => .raised e
      | .ok fmt =>
        match (if isVcf fmt && page_no == 1 then vcfHeaderPart body else .ok []) with
        | .error e => .raised e
        | .ok firstPart =>
          match envField body "data" with
          | .error e => .raised e
          | .ok (.jarr ds) =>
            (match envField body "next" with
             | .error e => .raised e
             | .ok nxt =>
               if pyTruthy nxt then
                 match queryPagedGo rest (page_no + 1) with
                 | .done tl => .done (firstPart ++ ds ++ tl)
                 | .pending tl => .pending (firstPart ++ ds ++ tl)
                 | .raised e => .raised e
               else .done (firstPart ++ ds))
          | .ok _ => .raised (.typeError "data is not iterable")

/-- A well-formed page envelope, used to state the paged-query claims:
the five keys the loop reads, with `meta` and `data` as JSON arrays. -/
structure PageSpec where
  format : String
  meta : List PyJson
  header : PyJson
  data : List PyJson
  next : PyJson

/-- The JSON object of a `PageSpec`. -/
def mkPageJson (p : PageSpec) : PyJson :=
  .jobj [("format", .jstr p.format), ("meta", .jarr p.meta), ("header", p.header),
         ("data", .jarr p.data), ("next", p.next)]

/-- A successful (status 200) page response carrying a `PageSpec`. -/
def mkPageResp (p : PageSpec) : RequestsResponse :=
  ⟨200, mkPageJson p⟩

/-- `_query_paged` run from its entry point (`page_no = 1`) over a trace
of successful pages. -/
def queryPagedRun (ps : List PageSpec) : PagedResult :=
  queryPagedGo (ps.map mkPageResp) 1

/-- A complete server-side pagination chain: at least one page, every
page except the last with a truthy `next` cursor (so the loop fetches
again), and the last page with a falsy `next` (so the loop exits). -/
def chainedPages : List PageSpec → Bool
  | [] => false
  | [p] => !(pyTruthy p.next)
  | p :: rest => pyTruthy p.next && chainedPages rest

/-! ## VCF annotation stream -/

/-- The four `##INFO=<...>` declaration lines inserted ahead of the
`#CHROM` line (`annotate` lines 277-280). -/
def infoHeaderLines (data_version : String) : List String :=
  ["##INFO=<ID=CMDB_AN,Number=1,Type=Integer,Description=\"Number of Alleles in Samples with Coverage from " ++ data_version ++ "\">\n",
   "##INFO=<ID=CMDB_AC,Number=A,Type=Integer,Description=\"Alternate Allele Counts in Samples with Coverage from " ++ data_version ++ "\">\n",
   "##INFO=<ID=CMDB_AF,Number=A,Type=Float,Description=\"Alternate Allele Frequencies from " ++ data_version ++ "\">\n",
   "##INFO=<ID=CMDB_FILTER,Number=A,Type=Float,Description=\"Filter from " ++ data_version ++ "\">\n"]

/-- Decimal digit accumulation for `pyInt`. -/
def pyDigitsAux : List Char → Nat → Option Nat
  | [], acc => some acc
  | c :: cs, acc =>
    if '0' ≤ c ∧ c ≤ '9' then pyDigitsAux cs (acc * 10 + (c.toNat - '0'.toNat))
    else none

/-- Python `int(s)` as used on the position field (`annotate` line 287),
for the plain decimal forms VCF positions take (an optional sign followed
by digits); `none` models the `ValueError` raise on a non-numeric field. -/
def pyInt (s : String) : Option Int :=
  match s.data with
  | [] => none
  | '-' :: rest =>
    match rest with
    | [] => none
    | _ => (pyDigitsAux rest 0).map (fun n => -(n : Int))
  | ds => (pyDigitsAux ds 0).map (fun n => (n : Int))

/-- `cmdb_variant[0][k]`: index 0 of the response array, then the field
`k` of that object (`annotate` lines 298-301). -/
def variantItemField (v : PyJson) (k : String) : Except PyError PyJson :=
  match v with
  | .jarr [] => .error .indexError
  | .jarr (x :: _) =>
    match x with
    | .jobj kvs =>
      match kvs.find? (fun p => p.1 = k) with
      | some p => .ok p.2
      | none => .error (.keyError k)
    | _ => .error (.typeError "variant item is not subscriptable")
  | _ => .error (.typeError "variant response is not subscriptable")

/-- Build the four rendered annotation values from a matched (non-null)
response (`annotate` lines 297-302), evaluating the dict literal's four
`'{}'.format(cmdb_variant[0][...])` expressions in source order. -/
def extractVariantRecord (v : PyJson) : Except PyError CmdbVariantRecord :=
  match variantItemField v "allele_num" with
  | .error e => .error e
  | .ok an =>
    match variantItemField v "allele_count" with
    | .error e => .error e
    | .ok ac =>
      match variantItemField v "allele_freq" with
      | .error e => .error e
      | .ok af =>
        match variantItemField v "filter_status" with
        | .error e => .error e
        | .ok fs => .ok ⟨pyFormat an, pyFormat ac, pyFormat af, pyFormat fs⟩

/-- One iteration of the `annotate` line loop (lines 269-319), for one
input line.  `query` abstracts `query_variant`'s network result (the
JSON `_query_nonpaged` returns, or the exception it raises); the first
component counts the `read_tokenstore` calls the iteration performs
(`query_variant` line 214 reads the credential file on every call), and
the second is the list of lines written to standard output, or the
exception that escapes the iteration.  Note `in_fields` is
`in_line.rstrip().split()[0:8]`, so its length never exceeds 8 and the
`len(in_fields) > 8` branch of lines 311-315 is unreachable. -/
def annotateLine (data_version : String) (query : String → Int → Except PyError PyJson)
    (in_line : String) : Nat × Except PyError (List String) :=
  if pyStartsWith in_line "#" then
    if pyStartsWith in_line "##" then
      (0, .ok [rstrip in_line ++ "\n"])
    else if pyStartsWith in_line "#CHROM" then
      (0, .ok (infoHeaderLines data_version ++ [rstrip in_line ++ "\n"]))
    else
      (0, .ok [])
  else
    match (pySplitWs (rstrip in_line)).take 8 with
    | [chrom_s, pos_s, id_s, ref_s, alt_s, qual_s, filter_s, info_s] =>
      match pyInt pos_s with
      | none => (0, .error (.valueError pos_s))
      | some position =>
        match query chrom_s position with
        | .error e => (1, .error e)
        | .ok cmdb_variant =>
          if pyIsNone cmdb_variant then
            (1, .ok [rstrip in_line ++ "\n"])
          else
            match extractVariantRecord cmdb_variant with
            | .error e => (1, .error e)
            | .ok r =>
              let new_info := mergeInfo r info_s
              if ((pySplitWs (rstrip in_line)).take 8).length > 8 then
                (1, .ok [String.intercalate "\t"
                  [chrom_s, toString position, id_s, ref_s, alt_s, qual_s, filter_s,
                   new_info, ((pySplitWs (rstrip in_line)).take 8).getD 8 ""] ++ "\n"])
              else
                (1, .ok [String.intercalate "\t"
                  [chrom_s, toString position, id_s, ref_s, alt_s, qual_s, filter_s,
                   new_info] ++ "\n"])
    | _ => (0, .error .indexError)

/-- The `annotate` line loop over a whole input (lines 267-319): process
lines in order, stopping at the first escaping exception; accumulate the
`read_tokenstore` call count and the output lines. -/
def annotateRunGo (data_version : String) (query : String → Int → Except PyError PyJson) :
    List String → Nat × Except PyError (List String)
  | [] => (0, .ok [])
  | l :: ls =>
    match annotateLine data_version query l with
    | (reads, .error e) => (reads, .error e)
    | (reads, .ok out) =>
      match annotateRunGo data_version query ls with
      | (reads2, .error e) => (reads + reads2, .error e)
      | (reads2, .ok out2) => (reads + reads2, .ok (out ++ out2))

/-- A whole `annotate` invocation (lines 254-321) with an existing,
well-formed credential store: `load_version()` (line 259) performs one
`read_tokenstore` call up front to obtain the dataset version, then the
line loop runs. -/
def annotateRun (store : TokenStore) (query : String → Int → Except PyError PyJson)
    (lines : List String) : Nat × Except PyError (List String) :=
  (1 + (annotateRunGo store.version query lines).1,
   (annotateRunGo store.version query lines).2)

/-! ## Claim theorems -/

/-- Claim C4: the single-shot variant query classifies the response
status as: 201 returns the parsed body, 403 raises `CMDBException` with
the server-supplied message (default `'Failed to query data.'`), 404
returns the body (always null through the adapter) without error — but
every other status raises `AttributeError`, because
`_requests_response` defines no `raise_for_status` method, not a generic
HTTP error.  States the code_bug on the final branch. -/
theorem queryNonpaged_status_classification :
    (∀ b : PyJson, queryNonpagedResult ⟨201, b⟩ = .ok b) ∧
    (∀ kvs : List (String × PyJson), queryNonpagedResult ⟨403, .jobj kvs⟩ =
      .error (.cmdbError (pyDictGet kvs "error" (.jstr "Failed to query data.")))) ∧
    (∀ b : PyJson, queryNonpagedResult ⟨404, b⟩ = .ok b) ∧
    (∀ (s : Nat) (b : PyJson), s ≠ 201 → s ≠ 403 → s ≠ 404 →
      queryNonpagedResult ⟨s, b⟩ = .error (.attrError raiseForStatusAttr)) := by
  refine ⟨fun b => rfl, fun kvs => rfl, fun b => rfl, fun s b h1 h2 h3 => ?_⟩
  unfold queryNonpagedResult
  simp [h1, h2, h3]

theorem queryNonpaged_status_classification_witness :
    ((200 : Nat) ≠ 201 ∧ (200 : Nat) ≠ 403 ∧ (200 : Nat) ≠ 404) ∧
    queryNonpagedResult ⟨200, PyJson.null⟩ = .error (.attrError raiseForStatusAttr) :=
  ⟨by decide, queryNonpaged_status_classification.2.2.2 200 PyJson.null
    (by decide) (by decide) (by decide)⟩

/-- Claim C7: each page fetch classifies its response status as: 200
succeeds with the parsed body, 400 raises `CMDBException` with the
server-supplied message (default `'Failed to query data.'` when the
`error` key is absent) — but any other status raises `AttributeError`
(the missing `raise_for_status` method), not a generic HTTP error, and
the loop propagates that error; in particular status 404, which is what
every transport-level HTTP error becomes through the adapter.  States
the code_bug on the final branch. -/
theorem queryPagedStep_status_classification :
    (∀ b : PyJson, queryPagedStep ⟨200, b⟩ = .ok b) ∧
    (∀ kvs : List (String × PyJson), queryPagedStep ⟨400, .jobj kvs⟩ =
      .error (.cmdbError (pyDictGet kvs "error" (.jstr "Failed to query data.")))) ∧
    (queryPagedStep ⟨400, .jobj []⟩ = .error (.cmdbError (.jstr "Failed to query data."))) ∧
    (∀ (s : Nat) (b : PyJson), s ≠ 200 → s ≠ 400 →
      queryPagedStep ⟨s, b⟩ = .error (.attrError raiseForStatusAttr)) ∧
    (∀ (rest : List RequestsResponse) (n : Nat),
      queryPagedGo (⟨404, PyJson.null⟩ :: rest) n = .raised (.attrError raiseForStatusAttr)) := by
  refine ⟨fun b => rfl, fun kvs => rfl, rfl, fun s b h1 h2 => ?_, fun rest n => rfl⟩
  unfold queryPagedStep
  rw [if_pos h1, if_neg h2]

theorem queryPagedStep_status_classification_witness :
    ((500 : Nat) ≠ 200 ∧ (500 : Nat) ≠ 400) ∧
    queryPagedStep ⟨500, PyJson.null⟩ = .error (.attrError raiseForStatusAttr) :=
  ⟨by decide, queryPagedStep_status_classification.2.2.2.1 500 PyJson.null
    (by decide) (by decide)⟩

/-- Claim C5: `login` writes the credential record — the given token
together with the fixed dataset version — if and only if the canary
query's response has status 201; on any other status it raises
`CMDBException` and leaves the credential file exactly as it was. -/
theorem login_writes_iff_201 (token : String) (canary : TransportOutcome) (fs : TokenFile) :
    ((login token canary fs).2 = none ↔ (requests_get canary).status_code = 201) ∧
    ((requests_get canary).status_code = 201 →
      login token canary fs = (some (some ⟨token, CMDB_DATASET_VERSION⟩), none)) ∧
    ((requests_get canary).status_code ≠ 201 →
      login token canary fs = (fs, some (.cmdbError (.jstr loginFailMsg)))) := by
  by_cases h : (requests_get canary).status_code = 201
  · have hL : login token canary fs = (some (some ⟨token, CMDB_DATASET_VERSION⟩), none) := by
      unfold login
      rw [if_neg (fun hc => hc h)]
      rfl
    refine ⟨?_, fun _ => hL, fun hc => absurd h hc⟩
    rw [hL]
    simp [h]
  · have hL : login token canary fs = (fs, some (.cmdbError (.jstr loginFailMsg))) := by
      unfold login
      rw [if_pos h]
    refine ⟨?_, fun hc => absurd hc h, fun _ => hL⟩
    rw [hL]
    simp [h]

theorem login_writes_iff_201_witness :
    (requests_get (TransportOutcome.httpErr 403)).status_code ≠ 201 ∧
    login "t" (TransportOutcome.httpErr 403) none =
      (none, some (.cmdbError (.jstr loginFailMsg))) :=
  ⟨by decide,
   (login_writes_iff_201 "t" (TransportOutcome.httpErr 403) none).2.2 (by decide)⟩

/-- Claim C10: an input line that starts with `#` but neither with `##`
nor with `#CHROM` is consumed with no output at all: it is silently
dropped, not passed through and not treated as a data row. -/
theorem annotateLine_drops_other_hash_lines (dv : String)
    (query : String → Int → Except PyError PyJson) (l : String)
    (h1 : pyStartsWith l "#" = true) (h2 : pyStartsWith l "##" = false)
    (h3 : pyStartsWith l "#CHROM" = false) :
    annotateLine dv query l = (0, .ok []) := by
  unfold annotateLine
  rw [if_pos h1, if_neg (by simp [h2]), if_neg (by simp [h3])]

/-- Control-flow lemma for the no-match path of a data line: when the
line splits into eight fields, the position parses, and the lookup
returns null, the iteration performs one credential read and re-emits the
rstripped line with a fresh newline. -/
theorem annotateLine_nomatch_eq {dv : String} {query : String → Int → Except PyError PyJson}
    {line chrom_s pos_s id_s ref_s alt_s qual_s filter_s info_s : String} {n : Int}
    (hhash : pyStartsWith line "#" = false)
    (hfields : (pySplitWs (rstrip line)).take 8 =
      [chrom_s, pos_s, id_s, ref_s, alt_s, qual_s, filter_s, info_s])
    (hpos : pyInt pos_s = some n)
    (hq : query chrom_s n = .ok PyJson.null) :
    annotateLine dv query line = (1, .ok [rstrip line ++ "\n"]) := by
  unfold annotateLine
  rw [if_neg (by simp [hhash])]
  rw [hfields]
  split
  next a b c d e f g i heq =>
    obtain ⟨ha, hb, _, _, _, _, _, _⟩ : chrom_s = a ∧ pos_s = b ∧ id_s = c ∧ ref_s = d ∧
        alt_s = e ∧ qual_s = f ∧ filter_s = g ∧ info_s = i := by
      simpa using heq
    subst ha
    subst hb
    rw [hpos]
    simp only [hq, pyIsNone, if_pos]
  next hne =>
    exact absurd rfl (hne chrom_s pos_s id_s ref_s alt_s qual_s filter_s info_s)

theorem annotateLine_drops_other_hash_lines_witness :
    (pyStartsWith "#foo\n" "#" = true ∧ pyStartsWith "#foo\n" "##" = false ∧
      pyStartsWith "#foo\n" "#CHROM" = false) ∧
    annotateLine "v" (fun _ _ => .ok PyJson.null) "#foo\n" = (0, .ok []) :=
  ⟨by decide,
   annotateLine_drops_other_hash_lines "v" (fun _ _ => .ok PyJson.null) "#foo\n"
     (by decide) (by decide) (by decide)⟩

/-- Claim C2 (code bug): a matched data line that splits into nine
whitespace-delimited fields is emitted with only eight tab-separated
columns — the ninth input field (`GT` here) is dropped, because
`in_fields = in_line.rstrip().split()[0:8]` caps the field list at eight
elements, making the `len(in_fields) > 8` nine-column branch of
`annotate` lines 311-315 unreachable. -/
theorem annotateLine_ninth_field_dropped :
    (pySplitWs (rstrip "chr1 100 . A T . . DP=10 GT\n")).length = 9 ∧
    annotateLine "CMDB_hg19_v1.0"
      (fun _ _ => .ok (.jarr [.jobj [("allele_num", .jnum 100), ("allele_count", .jnum 5),
        ("allele_freq", .jflt "0.05"), ("filter_status", .jnum 0)]]))
      "chr1 100 . A T . . DP=10 GT\n" =
      (1, .ok ["chr1\t100\t.\tA\tT\t.\t.\tCMDB_AC=5;CMDB_AF=0.05;CMDB_AN=100;CMDB_FILTER=0;DP=10\n"]) ∧
    (pySplit '\t'
      (rstrip "chr1\t100\t.\tA\tT\t.\t.\tCMDB_AC=5;CMDB_AF=0.05;CMDB_AN=100;CMDB_FILTER=0;DP=10\n")).length = 8 ∧
    "GT" ∉ pySplit '\t'
      (rstrip "chr1\t100\t.\tA\tT\t.\t.\tCMDB_AC=5;CMDB_AF=0.05;CMDB_AN=100;CMDB_FILTER=0;DP=10\n") :=
  ⟨rfl, rfl, rfl, by decide⟩

/-- Claim C3 counterexample: a well-formed data line whose lookup finds
no match is not emitted bit-for-bit — a line with a trailing blank before
its newline comes out rstripped, so output and input differ. -/
theorem annotateLine_noMatch_not_bitwise_identical :
    (annotateLine "v" (fun _ _ => .ok PyJson.null) "chr1 100 . A T . . DP=10 \n").2 =
      .ok ["chr1 100 . A T . . DP=10\n"] ∧
    (annotateLine "v" (fun _ _ => .ok PyJson.null) "chr1 100 . A T . . DP=10 \n").2 ≠
      .ok ["chr1 100 . A T . . DP=10 \n"] := by
  refine ⟨rfl, ?_⟩
  intro hcontra
  have hval : (annotateLine "v" (fun _ _ => .ok PyJson.null) "chr1 100 . A T . . DP=10 \n").2 =
      .ok ["chr1 100 . A T . . DP=10\n"] := rfl
  rw [hval] at hcontra
  injection hcontra with h
  injection h with h1 _
  exact absurd h1 (by decide)

/-- Claim C3 (amended): for a well-formed data line whose lookup returns
null, `annotate` emits `line.rstrip() + '\n'`, hence the output is
bit-for-bit the input exactly when the line carries no trailing
whitespace other than its single final newline. -/
theorem annotateLine_noMatch_passthrough (dv : String)
    (query : String → Int → Except PyError PyJson)
    (line chrom_s pos_s id_s ref_s alt_s qual_s filter_s info_s : String) (n : Int)
    (hhash : pyStartsWith line "#" = false)
    (hfields : (pySplitWs (rstrip line)).take 8 =
      [chrom_s, pos_s, id_s, ref_s, alt_s, qual_s, filter_s, info_s])
    (hpos : pyInt pos_s = some n)
    (hq : query chrom_s n = .ok PyJson.null)
    (hline : rstrip line ++ "\n" = line) :
    annotateLine dv query line = (1, .ok [line]) := by
  rw [annotateLine_nomatch_eq hhash hfields hpos hq, hline]

theorem annotateLine_noMatch_passthrough_witness :
    rstrip "chr1\t100\t.\tA\tT\t.\t.\tDP=10\n" ++ "\n" = "chr1\t100\t.\tA\tT\t.\t.\tDP=10\n" ∧
    annotateLine "v" (fun _ _ => .ok PyJson.null) "chr1\t100\t.\tA\tT\t.\t.\tDP=10\n" =
      (1, .ok ["chr1\t100\t.\tA\tT\t.\t.\tDP=10\n"]) :=
  ⟨by decide,
   annotateLine_noMatch_passthrough "v" (fun _ _ => .ok PyJson.null)
     "chr1\t100\t.\tA\tT\t.\t.\tDP=10\n" "chr1" "100" "." "A" "T" "." "." "DP=10" 100
     (by decide) (by decide) (by decide) rfl (by decide)⟩

/-- Claim C9 counterexample: a transport-level 403 is masked to a
404/null response and treated as "no match", but the resulting emitted
line is not always the unchanged input: a CRLF-terminated line comes out
with its carriage return stripped. -/
theorem httpError_masked_line_not_identical :
    queryNonpagedResult (requests_get (.httpErr 403)) = .ok PyJson.null ∧
    (annotateLine "v" (fun _ _ => queryNonpagedResult (requests_get (.httpErr 403)))
        "chr2\t200\t.\tG\tC\t.\t.\t.\r\n").2 = .ok ["chr2\t200\t.\tG\tC\t.\t.\t.\n"] ∧
    (annotateLine "v" (fun _ _ => queryNonpagedResult (requests_get (.httpErr 403)))
        "chr2\t200\t.\tG\tC\t.\t.\t.\r\n").2 ≠ .ok ["chr2\t200\t.\tG\tC\t.\t.\t.\r\n"] := by
  refine ⟨rfl, rfl, ?_⟩
  intro hcontra
  have hval : (annotateLine "v" (fun _ _ => queryNonpagedResult (requests_get (.httpErr 403)))
      "chr2\t200\t.\tG\tC\t.\t.\t.\r\n").2 = .ok ["chr2\t200\t.\tG\tC\t.\t.\t.\n"] := rfl
  rw [hval] at hcontra
  injection hcontra with h
  injection h with h1 _
  exact absurd h1 (by decide)

/-- Claim C9 (amended): every transport-level HTTP error — whatever its
status, 400 and 403 included — becomes a response with status 404 and a
null body, the point lookup then returns null exactly as for a genuine
no-match, and on a well-formed data line `annotate` emits
`line.rstrip() + '\n'` instead of raising: bit-for-bit the input line
whenever it has no trailing whitespace beyond its final newline. -/
theorem httpError_masked_as_nomatch (s : Nat) (dv : String)
    (line chrom_s pos_s id_s ref_s alt_s qual_s filter_s info_s : String) (n : Int)
    (hhash : pyStartsWith line "#" = false)
    (hfields : (pySplitWs (rstrip line)).take 8 =
      [chrom_s, pos_s, id_s, ref_s, alt_s, qual_s, filter_s, info_s])
    (hpos : pyInt pos_s = some n)
    (hline : rstrip line ++ "\n" = line) :
    requests_get (.httpErr s) = ⟨404, PyJson.null⟩ ∧
    queryNonpagedResult (requests_get (.httpErr s)) = .ok PyJson.null ∧
    annotateLine dv (fun _ _ => queryNonpagedResult (requests_get (.httpErr s))) line =
      (1, .ok [line]) :=
  ⟨rfl, rfl, by rw [annotateLine_nomatch_eq hhash hfields hpos rfl, hline]⟩

theorem queryPagedStep_mkPageResp (p : PageSpec) :
    queryPagedStep (mkPageResp p) = .ok (mkPageJson p) := rfl

theorem envField_mkPage_format (p : PageSpec) :
    envField (mkPageJson p) "format" = .ok (.jstr p.format) := rfl

theorem envField_mkPage_data (p : PageSpec) :
    envField (mkPageJson p) "data" = .ok (.jarr p.data) := rfl

theorem envField_mkPage_next (p : PageSpec) :
    envField (mkPageJson p) "next" = .ok p.next := rfl

theorem vcfHeaderPart_mkPage (p : PageSpec) :
    vcfHeaderPart (mkPageJson p) = .ok (p.meta ++ [p.header]) := rfl

/-- One unsorted step of the paged loop on a well-formed page: the loop
fetches the next response exactly when the page's `next` is truthy. -/
theorem queryPagedGo_cons (p : PageSpec) (rest : List RequestsResponse) (n : Nat) :
    queryPagedGo (mkPageResp p :: rest) n =
      if pyTruthy p.next = true then
        match queryPagedGo rest (n + 1) with
        | .done tl =>
          .done ((if p.format = "vcf" ∧ n = 1 then p.meta ++ [p.header] else []) ++ p.data ++ tl)
        | .pending tl =>
          .pending ((if p.format = "vcf" ∧ n = 1 then p.meta ++ [p.header] else []) ++
            p.data ++ tl)
        | .raised e => .raised e
      else
        .done ((if p.format = "vcf" ∧ n = 1 then p.meta ++ [p.header] else []) ++ p.data) := by
  by_cases hv : p.format = "vcf" ∧ n = 1
  · have hb : (isVcf (PyJson.jstr p.format) && (n == 1)) = true := by
      simp [isVcf, hv.1, hv.2]
    simp only [queryPagedGo, queryPagedStep_mkPageResp, envField_mkPage_format, hb,
      if_true, vcfHeaderPart_mkPage, envField_mkPage_data, envField_mkPage_next, if_pos hv]
  · have hb : (isVcf (PyJson.jstr p.format) && (n == 1)) = false := by
      rcases not_and_or.mp hv with hf | hn
      · simp [isVcf, hf]
      · simp [isVcf, hn]
    simp only [queryPagedGo, queryPagedStep_mkPageResp, envField_mkPage_format, hb,
      if_false, envField_mkPage_data, envField_mkPage_next, if_neg hv]
    simp

/-- Past the first page (`page_no ≥ 2`), a complete chain yields exactly
the concatenation of the pages' data lists, in order, and exits. -/
theorem queryPagedGo_later (ps : List PageSpec) (n : Nat) (hn : 2 ≤ n)
    (hchain : chainedPages ps = true) :
    queryPagedGo (ps.map mkPageResp) n = .done ((ps.map PageSpec.data).flatten) := by
  induction ps generalizing n with
  | nil => simp [chainedPages] at hchain
  | cons p rest ih =>
    rw [List.map_cons, queryPagedGo_cons]
    have hif : (if p.format = "vcf" ∧ n = 1 then p.meta ++ [p.header] else []) = [] :=
      if_neg (fun hc => absurd hc.2 (by omega))
    rw [hif]
    cases rest with
    | nil =>
      have hfalsy : pyTruthy p.next = false := by
        simp only [chainedPages] at hchain
        simpa using hchain
      rw [if_neg (by simp [hfalsy])]
      simp
    | cons q rs =>
      simp only [chainedPages, Bool.and_eq_true] at hchain
      rw [if_pos hchain.1]
      rw [ih (n + 1) (by omega) hchain.2]
      simp

/-- An envelope with no `next` key at all does not end the loop:
`cmdb_response_data['next']` raises `KeyError`, so the run errors
instead of terminating with the page's data items. -/
theorem queryPaged_next_absent_raises :
    queryPagedGo
      [⟨200, .jobj [("format", .jstr "json"), ("data", .jarr [.jstr "d1"])]⟩] 1 =
      .raised (.keyError "next") ∧
    queryPagedGo
      [⟨200, .jobj [("format", .jstr "json"), ("data", .jarr [.jstr "d1"])]⟩] 1 ≠
      .done [.jstr "d1"] := by
  refine ⟨rfl, ?_⟩
  intro hcontra
  have hval : queryPagedGo
      [⟨200, .jobj [("format", .jstr "json"), ("data", .jarr [.jstr "d1"])]⟩] 1 =
      .raised (.keyError "next") := rfl
  rw [hval] at hcontra
  simp at hcontra

/-- Claim C6 counterexample: `while url:` tests truthiness, not
nullness.  A successful page whose `next` is the empty string — neither
null nor absent — ends the loop, so the second page's data is never
yielded: the run stops after `d1` instead of yielding the concatenation
`d1, d2`, refuting both "yields the concatenation of each page's data
items" and "terminates exactly when next is null/absent". -/
theorem queryPaged_empty_next_stops_early :
    queryPagedRun
      [⟨"json", [], .null, [.jstr "d1"], .jstr ""⟩,
       ⟨"json", [], .null, [.jstr "d2"], .null⟩] = .done [.jstr "d1"] ∧
    queryPagedRun
      [⟨"json", [], .null, [.jstr "d1"], .jstr ""⟩,
       ⟨"json", [], .null, [.jstr "d2"], .null⟩] ≠ .done [.jstr "d1", .jstr "d2"] := by
  refine ⟨rfl, ?_⟩
  intro hcontra
  have hval : queryPagedRun
      [⟨"json", [], .null, [.jstr "d1"], .jstr ""⟩,
       ⟨"json", [], .null, [.jstr "d2"], .null⟩] = .done [.jstr "d1"] := rfl
  rw [hval] at hcontra
  simp at hcontra

/-- Claim C6 (amended): over a complete chain of successful pages — each
carrying a `next` key, every page but the last with a truthy `next` and
the last with a falsy one — the paged query yields the first page's meta
lines then its header (exactly once and only when the first envelope's
format is `"vcf"`), followed by the concatenation of every page's data
items in server page order.  The loop exits exactly when an envelope's
`next` value is falsy (null or, e.g., the empty string): a falsy `next`
ends the stream with that page's data whatever responses would follow,
while a truthy `next` always leaves another fetch pending rather than
terminating.  (An absent `next` key raises `KeyError` instead.) -/
theorem queryPaged_order_and_header (ps : List PageSpec) (h : chainedPages ps = true) :
    queryPagedRun ps = .done
      ((match ps with
        | [] => []
        | p0 :: _ => if p0.format = "vcf" then p0.meta ++ [p0.header] else []) ++
       (ps.map PageSpec.data).flatten) ∧
    (∀ (p : PageSpec) (rest : List RequestsResponse) (n : Nat), pyTruthy p.next = false →
      queryPagedGo (mkPageResp p :: rest) n =
        .done ((if p.format = "vcf" ∧ n = 1 then p.meta ++ [p.header] else []) ++ p.data)) ∧
    (∀ (p : PageSpec) (n : Nat), pyTruthy p.next = true →
      queryPagedGo [mkPageResp p] n =
        .pending ((if p.format = "vcf" ∧ n = 1 then p.meta ++ [p.header] else []) ++ p.data)) := by
  refine ⟨?_, ?_, ?_⟩
  · cases ps with
    | nil => simp [chainedPages] at h
    | cons p rest =>
      unfold queryPagedRun
      rw [List.map_cons, queryPagedGo_cons]
      have hif : (if p.format = "vcf" ∧ (1 : Nat) = 1 then p.meta ++ [p.header] else []) =
          (if p.format = "vcf" then p.meta ++ [p.header] else []) := by
        by_cases hv : p.format = "vcf" <;> simp [hv]
      rw [hif]
      cases rest with
      | nil =>
        have hfalsy : pyTruthy p.next = false := by
          simp only [chainedPages] at h
          simpa using h
        rw [if_neg (by simp [hfalsy])]
        simp
      | cons q rs =>
        simp only [chainedPages, Bool.and_eq_true] at h
        rw [if_pos h.1]
        rw [queryPagedGo_later (q :: rs) (1 + 1) (by omega) h.2]
        simp
  · intro p rest n hfalsy
    rw [queryPagedGo_cons, if_neg (by simp [hfalsy])]
  · intro p n htruthy
    rw [queryPagedGo_cons, if_pos htruthy]
    simp [queryPagedGo]

theorem queryPaged_order_and_header_witness :
    chainedPages
      [⟨"vcf", [.jstr "##m1", .jstr "##m2"], .jstr "#HDR", [.jstr "d1", .jstr "d2"], .jstr "u2"⟩,
       ⟨"vcf", [.jstr "##x"], .jstr "#H2", [.jstr "d3"], .null⟩] = true ∧
    queryPagedRun
      [⟨"vcf", [.jstr "##m1", .jstr "##m2"], .jstr "#HDR", [.jstr "d1", .jstr "d2"], .jstr "u2"⟩,
       ⟨"vcf", [.jstr "##x"], .jstr "#H2", [.jstr "d3"], .null⟩] =
      .done [.jstr "##m1", .jstr "##m2", .jstr "#HDR", .jstr "d1", .jstr "d2", .jstr "d3"] :=
  ⟨by decide,
   (queryPaged_order_and_header
     [⟨"vcf", [.jstr "##m1", .jstr "##m2"], .jstr "#HDR", [.jstr "d1", .jstr "d2"], .jstr "u2"⟩,
      ⟨"vcf", [.jstr "##x"], .jstr "#H2", [.jstr "d3"], .null⟩] (by decide)).1⟩

theorem httpError_masked_as_nomatch_witness :
    rstrip "chr3\t300\t.\tC\tG\t.\t.\tAF=0.5\n" ++ "\n" = "chr3\t300\t.\tC\tG\t.\t.\tAF=0.5\n" ∧
    annotateLine "v" (fun _ _ => queryNonpagedResult (requests_get (.httpErr 400)))
      "chr3\t300\t.\tC\tG\t.\t.\tAF=0.5\n" = (1, .ok ["chr3\t300\t.\tC\tG\t.\t.\tAF=0.5\n"]) :=
  ⟨by decide,
   (httpError_masked_as_nomatch 400 "v" "chr3\t300\t.\tC\tG\t.\t.\tAF=0.5\n"
     "chr3" "300" "." "C" "G" "." "." "AF=0.5" 300
     (by decide) (by decide) (by decide) (by decide)).2.2⟩

/-- Credential reads of one successful line iteration: header lines read
nothing; every data line that reaches `query_variant` reads the
tokenstore once. -/
theorem annotateLine_reads {dv : String} {query : String → Int → Except PyError PyJson}
    {l : String} {out : List String} (h : (annotateLine dv query l).2 = .ok out) :
    (annotateLine dv query l).1 = if pyStartsWith l "#" = true then 0 else 1 := by
  rcases hA : annotateLine dv query l with ⟨reads, res⟩
  rw [hA] at h
  simp only at h
  unfold annotateLine at hA
  by_cases hh : pyStartsWith l "#" = true
  · rw [if_pos hh] at hA
    rw [if_pos hh]
    split at hA
    · injection hA with h1 h2
      exact h1.symm
    · split at hA
      · injection hA with h1 h2
        exact h1.symm
      · injection hA with h1 h2
        exact h1.symm
  · rw [if_neg hh] at hA
    rw [if_neg hh]
    split at hA
    · split at hA
      · injection hA with h1 h2
        rw [← h2] at h
        simp at h
      · split at hA
        · injection hA with h1 h2
          rw [← h2] at h
          simp at h
        · split at hA
          · injection hA with h1 h2
            exact h1.symm
          · split at hA
            · injection hA with h1 h2
              rw [← h2] at h
              simp at h
            · split at hA
              · injection hA with h1 h2
                exact h1.symm
              · injection hA with h1 h2
                exact h1.symm
    · injection hA with h1 h2
      rw [← h2] at h
      simp at h

/-- Over an error-free run of the line loop, the credential is read once
per data line (lines not starting with `#`). -/
theorem annotateRunGo_reads {dv : String} {query : String → Int → Except PyError PyJson}
    {lines : List String} {out : List String}
    (h : (annotateRunGo dv query lines).2 = .ok out) :
    (annotateRunGo dv query lines).1 =
      lines.countP (fun l => !(pyStartsWith l "#")) := by
  induction lines generalizing out with
  | nil => rfl
  | cons l ls ih =>
    rcases h1 : annotateLine dv query l with ⟨r1, res1⟩
    cases res1 with
    | error e =>
      have : annotateRunGo dv query (l :: ls) = (r1, .error e) := by
        unfold annotateRunGo
        rw [h1]
      rw [this] at h
      simp at h
    | ok out1 =>
      rcases h2 : annotateRunGo dv query ls with ⟨r2, res2⟩
      cases res2 with
      | error e =>
        have : annotateRunGo dv query (l :: ls) = (r1 + r2, .error e) := by
          unfold annotateRunGo
          rw [h1, h2]
        rw [this] at h
        simp at h
      | ok out2 =>
        have hstep : annotateRunGo dv query (l :: ls) = (r1 + r2, .ok (out1 ++ out2)) := by
          unfold annotateRunGo
          rw [h1, h2]
        rw [hstep]
        have hr1 : r1 = if pyStartsWith l "#" = true then 0 else 1 := by
          have := @annotateLine_reads dv query l out1 (by rw [h1])
          rwa [h1] at this
        have hr2 : r2 = ls.countP (fun l => !(pyStartsWith l "#")) := by
          have := @ih out2 (by rw [h2])
          rwa [h2] at this
        simp only [List.countP_cons, hr1, hr2]
        by_cases hh : pyStartsWith l "#" = true
        · simp [hh]
        · simp [hh]
          omega

/-- Claim C8 counterexample: on a two-data-line input the credential
record is read three times during one `annotate` run — once by
`load_version` at the start and once per data line inside
`query_variant` — not once. -/
theorem annotateRun_reads_tokenstore_repeatedly :
    (annotateRun ⟨"tok", "CMDB_hg19_v1.0"⟩ (fun _ _ => .ok PyJson.null)
      ["chr1 100 . A T . . .\n", "chr1 101 . A G . . .\n"]).1 = 3 ∧
    ¬ (annotateRun ⟨"tok", "CMDB_hg19_v1.0"⟩ (fun _ _ => .ok PyJson.null)
      ["chr1 100 . A T . . .\n", "chr1 101 . A G . . .\n"]).1 = 1 :=
  ⟨rfl, by decide⟩

/-- Claim C8 (amended): during one error-free `annotate` run the local
credential record is read `1 + d` times, where `d` is the number of data
lines (lines not starting with `#`): once at the start by
`load_version`, and once more per data line because `query_variant`
calls `read_tokenstore` on every point lookup. -/
theorem annotateRun_reads_count (store : TokenStore)
    (query : String → Int → Except PyError PyJson) (lines : List String)
    (out : List String) (h : (annotateRun store query lines).2 = .ok out) :
    (annotateRun store query lines).1 =
      1 + lines.countP (fun l => !(pyStartsWith l "#")) := by
  unfold annotateRun at h ⊢
  simp only at h ⊢
  rw [annotateRunGo_reads h]

theorem annotateRun_reads_count_witness :
    (annotateRun ⟨"tok", "CMDB_hg19_v1.0"⟩ (fun _ _ => .ok PyJson.null)
      ["##x\n", "chr1 100 . A T . . .\n"]).2 = .ok ["##x\n", "chr1 100 . A T . . .\n"] ∧
    (annotateRun ⟨"tok", "CMDB_hg19_v1.0"⟩ (fun _ _ => .ok PyJson.null)
      ["##x\n", "chr1 100 . A T . . .\n"]).1 =
      1 + (["##x\n", "chr1 100 . A T . . .\n"] : List String).countP
        (fun l => !(pyStartsWith l "#")) :=
  ⟨rfl,
   annotateRun_reads_count ⟨"tok", "CMDB_hg19_v1.0"⟩ (fun _ _ => .ok PyJson.null)
     ["##x\n", "chr1 100 . A T . . .\n"] ["##x\n", "chr1 100 . A T . . .\n"] rfl⟩

end Cmdbtools
